import Mathlib

/-!
Verification development for the diamonds-hardhat-foundry orchestration core.

The TypeScript sources are shallowly embedded as pure Lean functions:
  * `facetConstantName` embeds the facet-name mangling chain in
    `HelperGenerator.generateLibrarySource` (HelperGenerator.ts, lines 243-252):
    `.replace(/Facet$/, "").replace(/([A-Z])/g, "_$1").toUpperCase().replace(/^_/, "") + "_FACET"`.
  * JavaScript `String.prototype.toUpperCase` is modelled on the ASCII range
    (Solidity contract names), as is the regex character class `[A-Z]`.
-/

/-- Code point is an ASCII capital letter, embedding the regex class `[A-Z]`. -/
def isUpperCode (n : Nat) : Bool := 65 ≤ n && n ≤ 90

/-- Character is an ASCII capital letter. -/
def isAsciiUpper (c : Char) : Bool := isUpperCode c.toNat

/-- JS `toUpperCase` restricted to ASCII: lowercase letters are shifted by 32. -/
def asciiUpperChar (c : Char) : Char :=
  if 97 ≤ c.toNat && c.toNat ≤ 122 then Char.ofNat (c.toNat - 32) else c

/-- Embeds `.replace(/([A-Z])/g, "_$1")`: an underscore is inserted before every
ASCII capital letter, including one at the head of the string. -/
def underscoreUpper : List Char → List Char
  | [] => []
  | c :: cs =>
    if isAsciiUpper c then '_' :: c :: underscoreUpper cs else c :: underscoreUpper cs

/-- Embeds `.replace(/^_/, "")`: at most one leading underscore is removed. -/
def dropLeadUnderscore : List Char → List Char
  | [] => []
  | c :: cs => if c = '_' then cs else c :: cs

/-- Embeds `.replace(/Facet$/, "")`: one trailing `Facet` suffix is removed. -/
def dropFacetSuffix (l : List Char) : List Char :=
  if List.take 5 l.reverse = ['t', 'e', 'c', 'a', 'F'] then
    List.reverse (List.drop 5 l.reverse)
  else l

/-- The constant identifier generated for a facet name
(HelperGenerator.ts, lines 244-248): strip the trailing `Facet`, insert `_`
before capital letters, uppercase, drop a leading `_`, append `_FACET`. -/
def facetConstantName (facetName : String) : String :=
  String.mk
    (dropLeadUnderscore
      (List.map asciiUpperChar (underscoreUpper (dropFacetSuffix facetName.data)))
      ++ ('_' :: 'F' :: 'A' :: 'C' :: 'E' :: 'T' :: []))

/-- Modelled from the spec's words: insert an underscore before each *internal*
uppercase letter only (the head character never receives one). -/
def underscoreUpperInternal : List Char → List Char
  | [] => []
  | c :: cs => c :: underscoreUpper cs

/-- Modelled from the spec's words: the mangling rule as the spec states it,
to be compared with `facetConstantName` taken from the source. -/
def specFacetConstantName (facetName : String) : String :=
  String.mk
    (dropLeadUnderscore
      (List.map asciiUpperChar (underscoreUpperInternal (dropFacetSuffix facetName.data)))
      ++ ('_' :: 'F' :: 'A' :: 'C' :: 'E' :: 'T' :: []))

theorem asciiUpperChar_of_upper {c : Char} (h : isAsciiUpper c = true) :
    asciiUpperChar c = c := by
  unfold asciiUpperChar
  unfold isAsciiUpper isUpperCode at h
  simp only [Bool.and_eq_true, decide_eq_true_eq] at h
  have : ¬(97 ≤ c.toNat && c.toNat ≤ 122) = true := by
    simp only [Bool.and_eq_true, decide_eq_true_eq]
    omega
  simp [this]

theorem asciiUpperChar_ne_underscore_of_upper {c : Char} (h : isAsciiUpper c = true) :
    asciiUpperChar c ≠ '_' := by
  rw [asciiUpperChar_of_upper h]
  unfold isAsciiUpper isUpperCode at h
  simp only [Bool.and_eq_true, decide_eq_true_eq] at h
  intro hc
  have : c.toNat = 95 := by rw [hc]; rfl
  omega

theorem dropLead_map_underscore_eq (l : List Char) :
    dropLeadUnderscore (List.map asciiUpperChar (underscoreUpper l))
      = dropLeadUnderscore (List.map asciiUpperChar (underscoreUpperInternal l)) := by
  cases l with
  | nil => rfl
  | cons c cs =>
    unfold underscoreUpper underscoreUpperInternal
    by_cases h : isAsciiUpper c = true
    · simp only [h, if_true, List.map_cons]
      have h1 : asciiUpperChar '_' = '_' := by decide
      have h2 : asciiUpperChar c ≠ '_' := asciiUpperChar_ne_underscore_of_upper h
      simp [dropLeadUnderscore, h1, h2]
    · simp only [Bool.not_eq_true] at h
      simp [h]

/-- C3: for every facet name, the generated constant identifier equals the
spec's rule (strip trailing `Facet`, underscore before internal capitals,
uppercase, strip the introduced leading underscore, append `_FACET`), and the
three literal examples map as stated. -/
theorem facetConstantName_spec :
    (∀ s : String, facetConstantName s = specFacetConstantName s)
    ∧ facetConstantName "DiamondCutFacet" = "DIAMOND_CUT_FACET"
    ∧ facetConstantName "OwnershipFacet" = "OWNERSHIP_FACET"
    ∧ facetConstantName "AccessControl" = "ACCESS_CONTROL_FACET" := by
  refine ⟨fun s => ?_, by decide, by decide, by decide⟩
  unfold facetConstantName specFacetConstantName
  rw [dropLead_map_underscore_eq]

/-!
Deployment record paths (DeploymentManager.ts).

`getDeploymentPath` / `hasDeploymentRecord` (lines 181-214) build
`join(root, "diamonds", diamondName, "deployments", fileName)` where
`fileName` is
`diamondName.toLowerCase() ++ "-" ++ networkName.toLowerCase() ++ "-" ++ chainId ++ ".json"`.
Node `path.join` on plain segments is modelled as `/`-interpolation.
JS `toLowerCase` is modelled on the ASCII range.
-/

/-- JS `toLowerCase` restricted to ASCII: capital letters are shifted by 32. -/
def asciiLowerChar (c : Char) : Char :=
  if 65 ≤ c.toNat && c.toNat ≤ 90 then Char.ofNat (c.toNat + 32) else c

/-- JS `String.prototype.toLowerCase` on the ASCII range. -/
def jsToLower (s : String) : String := String.mk (s.data.map asciiLowerChar)

/-- Node `path.join` of two plain segments. -/
def pathJoin2 (a b : String) : String := a ++ "/" ++ b

/-- The deployment record file name (DeploymentManager.ts, lines 186, 206). -/
def deploymentFileName (diamondName networkName : String) (chainId : Nat) : String :=
  jsToLower diamondName ++ "-" ++ jsToLower networkName ++ "-" ++ toString chainId ++ ".json"

/-- `getDeploymentPath` (DeploymentManager.ts, lines 201-214):
`join(root, "diamonds", diamondName, "deployments", fileName)`. -/
def getDeploymentPath (root diamondName networkName : String) (chainId : Nat) : String :=
  pathJoin2 (pathJoin2 (pathJoin2 (pathJoin2 root "diamonds") diamondName) "deployments")
    (deploymentFileName diamondName networkName chainId)

/-- Modelled from the spec's words: the record path as the spec describes it,
under a `deployments/` root directly below the project root, to be compared
with `getDeploymentPath` taken from the source. -/
def specRecordPath (root diamondName networkName : String) (chainId : Nat) : String :=
  pathJoin2 (pathJoin2 root "deployments")
    (pathJoin2 diamondName (deploymentFileName diamondName networkName chainId))

/-- C5 counterexample: at a concrete key the path computed by the code lies
under `diamonds/ExampleDiamond/deployments/`, not under
`deployments/ExampleDiamond/` as the claim states, so the two differ. -/
theorem getDeploymentPath_layout_counterexample :
    getDeploymentPath "." "ExampleDiamond" "hardhat" 31337
      = "./diamonds/ExampleDiamond/deployments/examplediamond-hardhat-31337.json"
    ∧ specRecordPath "." "ExampleDiamond" "hardhat" 31337
      = "./deployments/ExampleDiamond/examplediamond-hardhat-31337.json"
    ∧ getDeploymentPath "." "ExampleDiamond" "hardhat" 31337
        ≠ specRecordPath "." "ExampleDiamond" "hardhat" 31337 :=
  ⟨by decide, by decide, by decide⟩

/-- C5 amended: the record path is the pure function
`root/diamonds/(diamondName)/deployments/(lowered name)-(lowered network)-(chainId).json`:
the file name lowercases the two string fields and keeps `chainId` verbatim,
the directory keeps `diamondName` in its original case, and the file name is
invariant under case variations of the string fields. -/
theorem getDeploymentPath_characterization (root dn nw : String) (cid : Nat) :
    getDeploymentPath root dn nw cid
      = root ++ "/diamonds/" ++ dn ++ "/deployments/" ++ deploymentFileName dn nw cid
    ∧ deploymentFileName dn nw cid
      = jsToLower dn ++ "-" ++ jsToLower nw ++ "-" ++ toString cid ++ ".json"
    ∧ (∀ dn2 nw2 : String, jsToLower dn2 = jsToLower dn → jsToLower nw2 = jsToLower nw →
        deploymentFileName dn2 nw2 cid = deploymentFileName dn nw cid) := by
  refine ⟨?_, rfl, ?_⟩
  · have h1 : ∀ x : String, "/" ++ ("diamonds" ++ ("/" ++ x)) = "/diamonds/" ++ x := by
      intro x
      rw [← String.append_assoc, ← String.append_assoc,
        show ("/" ++ "diamonds" ++ "/" : String) = "/diamonds/" from rfl]
    have h2 : ∀ x : String, "/" ++ ("deployments" ++ ("/" ++ x)) = "/deployments/" ++ x := by
      intro x
      rw [← String.append_assoc, ← String.append_assoc,
        show ("/" ++ "deployments" ++ "/" : String) = "/deployments/" from rfl]
    simp only [getDeploymentPath, pathJoin2, String.append_assoc]
    rw [h2, h1]
  · intro dn2 nw2 hdn hnw
    unfold deploymentFileName
    rw [hdn, hnw]

/-- C5 witness: the amended characterization applied at a concrete key,
with the case-invariance hypotheses discharged at concrete case variants. -/
theorem getDeploymentPath_characterization_witness :
    getDeploymentPath "." "ExampleDiamond" "hardhat" 31337
      = "." ++ "/diamonds/" ++ "ExampleDiamond" ++ "/deployments/"
          ++ deploymentFileName "ExampleDiamond" "hardhat" 31337
    ∧ deploymentFileName "EXAMPLEdiamond" "HardHat" 31337
      = deploymentFileName "ExampleDiamond" "hardhat" 31337 := by
  refine ⟨(getDeploymentPath_characterization "." "ExampleDiamond" "hardhat" 31337).1, ?_⟩
  exact (getDeploymentPath_characterization "." "ExampleDiamond" "hardhat" 31337).2.2
    "EXAMPLEdiamond" "HardHat" (by decide) (by decide)

/-!
DeploymentManager state model (DeploymentManager.ts).

The class holds an in-memory `deploymentCache`; the record store is the file
system; the external `LocalDiamondDeployer` peer library is the oracle that
performs actual deployments. The embedding passes this state explicitly:

  * `ManagerState.files` — on-disk records, path to record contents;
  * `ManagerState.cache` — the `deploymentCache` map, key to `Diamond`
    (a `Diamond` is observed here only through `getDeployedDiamondData`,
    so it is represented by that value);
  * `ManagerState.deployCount` — how many times the external deployer's
    actual deploy path (`getDiamondDeployed`) has run;
  * `DeployEnv.freshDeploys n` — the external deployer's result for its
    n-th actual deployment; `DeployEnv.chainId` — the connected network's
    chain id resolved from the provider.

External-library failures (its `try`/`catch` re-throws) are outside the
claims settled here; the oracle always succeeds.
-/

/-- A facet's entry in `DeployedDiamondData` (only the address is consumed by
the code under verification). -/
structure FacetRecord where
  address : String
deriving DecidableEq

/-- The normalized deployment data shape (`DeployedDiamondData` of
`@diamondslab/diamonds`), with the fields the framework reads. -/
structure DeployedDiamondData where
  DiamondAddress : String
  DeployerAddress : String
  DeployedFacets : List (String × FacetRecord)
deriving DecidableEq

/-- Fixed collaborators of one `DeploymentManager`: the hardhat project root,
the provider's chain id, and the external deployer oracle. -/
structure DeployEnv where
  chainId : Nat
  root : String
  freshDeploys : Nat → DeployedDiamondData

/-- Mutable state threaded through the manager's operations. -/
structure ManagerState where
  files : List (String × DeployedDiamondData)
  cache : List (String × DeployedDiamondData)
  deployCount : Nat

/-- The ephemeral cache key (DeploymentManager.ts, lines 91, 122):
`diamondName-networkName-chainId`. -/
def cacheKey (diamondName networkName : String) (chainId : Nat) : String :=
  diamondName ++ "-" ++ networkName ++ "-" ++ toString chainId

/-- `hasDeploymentRecord` (DeploymentManager.ts, lines 181-196):
`existsSync` at the deployment path. -/
def hasDeploymentRecord (env : DeployEnv) (s : ManagerState)
    (diamondName networkName : String) (chainId : Nat) : Bool :=
  (List.lookup (getDeploymentPath env.root diamondName networkName chainId) s.files).isSome

/-- The external deployer's load path (`getInstance` + `getDiamond`): returns
the persisted record. Only reached under a `hasDeploymentRecord` guard; the
default is unreachable. -/
def loadRecord (env : DeployEnv) (s : ManagerState)
    (diamondName networkName : String) (chainId : Nat) : DeployedDiamondData :=
  match List.lookup (getDeploymentPath env.root diamondName networkName chainId) s.files with
  | some d => d
  | none => ⟨"", "", []⟩

/-- `deploy` (DeploymentManager.ts, lines 31-103): with `!force` and an
existing record, load it; otherwise run the external deployer's deploy path,
persist the record iff `writeDeployedDiamondData`, and cache the result in
memory iff not persisting. -/
def deploy (env : DeployEnv) (diamondName networkName : String)
    (force writeDeployedDiamondData : Bool) (s : ManagerState) :
    DeployedDiamondData × ManagerState :=
  if !force && hasDeploymentRecord env s diamondName networkName env.chainId then
    (loadRecord env s diamondName networkName env.chainId, s)
  else
    let d := env.freshDeploys s.deployCount
    (d,
      { files :=
          if writeDeployedDiamondData then
            (getDeploymentPath env.root diamondName networkName env.chainId, d) :: s.files
          else s.files
        cache :=
          if writeDeployedDiamondData then s.cache
          else (cacheKey diamondName networkName env.chainId, d) :: s.cache
        deployCount := s.deployCount + 1 })

/-- `getDeployment` (DeploymentManager.ts, lines 111-146): check the ephemeral
cache first, then the record store (loading if the record exists); `null` when
nothing is found. Non-mutating. -/
def getDeployment (env : DeployEnv) (diamondName networkName : String) (chainId : Nat)
    (s : ManagerState) : Option DeployedDiamondData :=
  match List.lookup (cacheKey diamondName networkName chainId) s.cache with
  | some d => some d
  | none =>
    if hasDeploymentRecord env s diamondName networkName chainId then
      some (loadRecord env s diamondName networkName chainId)
    else none

/-- `ensureDeployment` (DeploymentManager.ts, lines 155-175): return the
existing deployment when one is found and `force` is off, else deploy. -/
def ensureDeployment (env : DeployEnv) (diamondName networkName : String)
    (force writeDeployedDiamondData : Bool) (s : ManagerState) :
    DeployedDiamondData × ManagerState :=
  match getDeployment env diamondName networkName env.chainId s with
  | some d =>
    if force then deploy env diamondName networkName force writeDeployedDiamondData s
    else (d, s)
  | none => deploy env diamondName networkName force writeDeployedDiamondData s

/-- C1: when a persisted record exists for the key and `force` is off, two
consecutive `ensureDeployment` calls return data with the same Diamond
(proxy) address, and the external deployer's deploy path is not invoked at
all (`deployCount` is unchanged, which gives the claimed "at most once"). -/
theorem ensureDeployment_reuse (env : DeployEnv) (s : ManagerState)
    (dn nw : String) (write : Bool)
    (h : hasDeploymentRecord env s dn nw env.chainId = true) :
    (ensureDeployment env dn nw false write
        ((ensureDeployment env dn nw false write s).2)).1.DiamondAddress
      = (ensureDeployment env dn nw false write s).1.DiamondAddress
    ∧ (ensureDeployment env dn nw false write
        ((ensureDeployment env dn nw false write s).2)).2.deployCount
      = s.deployCount := by
  have hg : ∃ d, getDeployment env dn nw env.chainId s = some d := by
    unfold getDeployment
    cases hc : List.lookup (cacheKey dn nw env.chainId) s.cache with
    | some d => exact ⟨d, rfl⟩
    | none => exact ⟨loadRecord env s dn nw env.chainId, by rw [h]; rfl⟩
  obtain ⟨d, hd⟩ := hg
  have h1 : ensureDeployment env dn nw false write s = (d, s) := by
    unfold ensureDeployment
    rw [hd]
    rfl
  simp [h1]

/-- Fixed collaborators for the concrete witnesses below. -/
def envW : DeployEnv :=
  ⟨31337, ".", fun _ => ⟨"0x1111111111111111111111111111111111111111", "0xdeployer", []⟩⟩

/-- A concrete persisted record. -/
def recordW : DeployedDiamondData := ⟨"0xabc", "0xdef", []⟩

/-- A state holding one persisted record for the witness key. -/
def stateW : ManagerState :=
  ⟨[(getDeploymentPath "." "ExampleDiamond" "hardhat" 31337, recordW)], [], 0⟩

theorem ensureDeployment_reuse_witness :
    hasDeploymentRecord envW stateW "ExampleDiamond" "hardhat" envW.chainId = true
    ∧ ((ensureDeployment envW "ExampleDiamond" "hardhat" false false
          ((ensureDeployment envW "ExampleDiamond" "hardhat" false false stateW).2)).1.DiamondAddress
        = (ensureDeployment envW "ExampleDiamond" "hardhat" false false stateW).1.DiamondAddress
      ∧ (ensureDeployment envW "ExampleDiamond" "hardhat" false false
          ((ensureDeployment envW "ExampleDiamond" "hardhat" false false stateW).2)).2.deployCount
        = stateW.deployCount) :=
  ⟨by decide,
   ensureDeployment_reuse envW stateW "ExampleDiamond" "hardhat" false (by decide)⟩

/-- C2: when the actual deploy path runs (record absent, or `force`) with
`writeDeployedDiamondData = false`, the result is inserted into the ephemeral
cache under `diamondName-networkName-chainId`, a subsequent `getDeployment`
with the same key returns it, and the file store is left untouched (so no
record file is created at the key's path). -/
theorem deploy_ephemeral_cache (env : DeployEnv) (s : ManagerState)
    (dn nw : String) (force : Bool)
    (h : force = true ∨ hasDeploymentRecord env s dn nw env.chainId = false) :
    List.lookup (cacheKey dn nw env.chainId) (deploy env dn nw force false s).2.cache
      = some (deploy env dn nw force false s).1
    ∧ getDeployment env dn nw env.chainId ((deploy env dn nw force false s).2)
      = some (deploy env dn nw force false s).1
    ∧ (deploy env dn nw force false s).2.files = s.files := by
  have hcond : (!force && hasDeploymentRecord env s dn nw env.chainId) = false := by
    rcases h with h | h <;> simp [h]
  have hdep : deploy env dn nw force false s
      = (env.freshDeploys s.deployCount,
         ⟨s.files,
          (cacheKey dn nw env.chainId, env.freshDeploys s.deployCount) :: s.cache,
          s.deployCount + 1⟩) := by
    unfold deploy
    rw [hcond]
    rfl
  refine ⟨?_, ?_, ?_⟩
  · rw [hdep]
    simp [List.lookup]
  · rw [hdep]
    unfold getDeployment
    simp [List.lookup]
  · rw [hdep]

/-- An empty starting state for the ephemeral witness. -/
def stateE : ManagerState := ⟨[], [], 0⟩

theorem deploy_ephemeral_cache_witness :
    (false = true ∨ hasDeploymentRecord envW stateE "ExampleDiamond" "hardhat" envW.chainId = false)
    ∧ (List.lookup (cacheKey "ExampleDiamond" "hardhat" envW.chainId)
          (deploy envW "ExampleDiamond" "hardhat" false false stateE).2.cache
        = some (deploy envW "ExampleDiamond" "hardhat" false false stateE).1
      ∧ getDeployment envW "ExampleDiamond" "hardhat" envW.chainId
          ((deploy envW "ExampleDiamond" "hardhat" false false stateE).2)
        = some (deploy envW "ExampleDiamond" "hardhat" false false stateE).1
      ∧ (deploy envW "ExampleDiamond" "hardhat" false false stateE).2.files = stateE.files) :=
  ⟨Or.inr (by decide),
   deploy_ephemeral_cache envW stateE "ExampleDiamond" "hardhat" false (Or.inr (by decide))⟩

/-!
Helper source generation (HelperGenerator.ts, `generateLibrarySource`,
lines 182-319). The method interpolates `new Date().toISOString()` into the
file header, so the wall-clock timestamp is an (implicit) input; the
embedding passes it explicitly as the `timestamp` argument. JS object
iteration over `DeployedFacets` follows insertion order, modelled by the
list order of `DeployedFacets`.
-/

/-- `networkInfo` (HelperGenerator.ts, line 189). -/
def generatorNetworkInfo (networkName : String) (chainId : Nat) : String :=
  networkName ++ "-" ++ toString chainId

/-- `deploymentFileName` (HelperGenerator.ts, line 190): note only the diamond
name is lowercased here, unlike the record-store file name. -/
def generatorFileName (diamondName networkName : String) (chainId : Nat) : String :=
  jsToLower diamondName ++ "-" ++ generatorNetworkInfo networkName chainId ++ ".json"

/-- `deploymentFilePath` (HelperGenerator.ts, line 191). -/
def generatorRecordPath (diamondName networkName : String) (chainId : Nat) : String :=
  "diamonds/" ++ diamondName ++ "/deployments/"
    ++ generatorFileName diamondName networkName chainId

/-- The facet constant block (HelperGenerator.ts, lines 243-252), one
doc-comment line and one constant per facet, in facet order. -/
def facetConstantLines : List (String × FacetRecord) → String
  | [] => ""
  | (facetName, fr) :: rest =>
    "    /// @notice Address of " ++ facetName ++ " implementation\n"
      ++ "    address constant " ++ facetConstantName facetName ++ " = " ++ fr.address ++ ";\n"
      ++ facetConstantLines rest

/-- The `getFacetAddress` branch chain (HelperGenerator.ts, lines 299-312):
`if` for the first facet, `else if` afterwards, one branch per facet. -/
def facetBranchLines (firstFacet : Bool) : List (String × FacetRecord) → String
  | [] => ""
  | (facetName, _) :: rest =>
    "        " ++ (if firstFacet then "if" else "else if")
      ++ " (keccak256(bytes(facetName)) == keccak256(bytes(\"" ++ facetName ++ "\"))) \x7b\n"
      ++ "            return " ++ facetConstantName facetName ++ ";\n"
      ++ "        \x7d\n"
      ++ facetBranchLines false rest

/-- `generateLibrarySource` (HelperGenerator.ts, lines 182-319), the `source`
string in accumulation order; `timestamp` stands for
`new Date().toISOString()`. -/
def generateLibrarySource (diamondName networkName : String) (chainId : Nat)
    (dd : DeployedDiamondData) (timestamp : String) : String :=
  "// SPDX-License-Identifier: MIT\n"
    ++ "pragma solidity ^0.8.19;\n\n"
    ++ "/**\n"
    ++ " * @title DiamondDeployment\n"
    ++ " * @notice Auto-generated deployment data for " ++ diamondName ++ "\n"
    ++ " * @dev This library provides constants and helper functions for accessing\n"
    ++ " *      deployment data in Forge tests. It is auto-generated from the deployment\n"
    ++ " *      record and should not be edited manually.\n"
    ++ " *\n"
    ++ " * Generated from: " ++ generatorRecordPath diamondName networkName chainId ++ "\n"
    ++ " * Generated at: " ++ timestamp ++ "\n"
    ++ " *\n"
    ++ " * To regenerate this file:\n"
    ++ " *   npx hardhat diamonds-forge:generate-helpers --diamond " ++ diamondName ++ "\n"
    ++ " *\n"
    ++ " * ⚠️  DO NOT EDIT MANUALLY - Changes will be overwritten on next generation\n"
    ++ " */\n"
    ++ "library DiamondDeployment \x7b\n"
    ++ "    /// @notice Name of the Diamond contract\n"
    ++ "    /// @dev Used for identifying the Diamond in tests\n"
    ++ "    string constant DIAMOND_NAME = \"" ++ diamondName ++ "\";\n\n"
    ++ "    /// @notice Path to the Diamond ABI file\n"
    ++ "    /// @dev Used by DiamondFuzzBase to load ABI for testing\n"
    ++ "    string constant DIAMOND_ABI_PATH = \"./diamond-abi/" ++ diamondName ++ ".json\";\n\n"
    ++ "    /// @notice Address of the deployed " ++ diamondName ++ " contract\n"
    ++ "    /// @dev This is the main Diamond proxy address\n"
    ++ "    address constant DIAMOND_ADDRESS = " ++ dd.DiamondAddress ++ ";\n\n"
    ++ "    /// @notice Address of the deployer account\n"
    ++ "    /// @dev Account that deployed the Diamond\n"
    ++ "    address constant DEPLOYER_ADDRESS = " ++ dd.DeployerAddress ++ ";\n\n"
    ++ "    // ========================================\n"
    ++ "    // Facet Addresses\n"
    ++ "    // ========================================\n\n"
    ++ facetConstantLines dd.DeployedFacets
    ++ "\n"
    ++ "    // ========================================\n"
    ++ "    // Helper Functions\n"
    ++ "    // ========================================\n\n"
    ++ "    /**\n"
    ++ "     * @notice Get the Diamond name\n"
    ++ "     * @return The name of the Diamond contract\n"
    ++ "     */\n"
    ++ "    function getDiamondName() internal pure returns (string memory) \x7b\n"
    ++ "        return DIAMOND_NAME;\n"
    ++ "    \x7d\n\n"
    ++ "    /**\n"
    ++ "     * @notice Get the path to the Diamond ABI file\n"
    ++ "     * @return The path to the Diamond ABI JSON file\n"
    ++ "     */\n"
    ++ "    function getDiamondABIPath() internal pure returns (string memory) \x7b\n"
    ++ "        return DIAMOND_ABI_PATH;\n"
    ++ "    \x7d\n\n"
    ++ "    /**\n"
    ++ "     * @notice Get the Diamond contract address\n"
    ++ "     * @return The address of the deployed Diamond proxy\n"
    ++ "     */\n"
    ++ "    function getDiamondAddress() internal pure returns (address) \x7b\n"
    ++ "        return DIAMOND_ADDRESS;\n"
    ++ "    \x7d\n\n"
    ++ "    /**\n"
    ++ "     * @notice Get the deployer address\n"
    ++ "     * @return The address of the deployer account\n"
    ++ "     */\n"
    ++ "    function getDeployerAddress() internal pure returns (address) \x7b\n"
    ++ "        return DEPLOYER_ADDRESS;\n"
    ++ "    \x7d\n\n"
    ++ "    /**\n"
    ++ "     * @notice Get facet implementation address by name\n"
    ++ "     * @param facetName The name of the facet\n"
    ++ "     * @return The address of the facet implementation\n"
    ++ "     */\n"
    ++ "    function getFacetAddress(string memory facetName) internal pure returns (address) \x7b\n"
    ++ facetBranchLines true dd.DeployedFacets
    ++ "        return address(0);\n"
    ++ "    \x7d\n"
    ++ "\x7d\n"

/-- Everything `generateLibrarySource` emits before the timestamp. -/
def genPre (diamondName networkName : String) (chainId : Nat) : String :=
  "// SPDX-License-Identifier: MIT\n"
    ++ "pragma solidity ^0.8.19;\n\n"
    ++ "/**\n"
    ++ " * @title DiamondDeployment\n"
    ++ " * @notice Auto-generated deployment data for " ++ diamondName ++ "\n"
    ++ " * @dev This library provides constants and helper functions for accessing\n"
    ++ " *      deployment data in Forge tests. It is auto-generated from the deployment\n"
    ++ " *      record and should not be edited manually.\n"
    ++ " *\n"
    ++ " * Generated from: " ++ generatorRecordPath diamondName networkName chainId ++ "\n"
    ++ " * Generated at: "

/-- Everything `generateLibrarySource` emits after the timestamp. -/
def genSuf (diamondName : String) (dd : DeployedDiamondData) : String :=
  "\n"
    ++ " *\n"
    ++ " * To regenerate this file:\n"
    ++ " *   npx hardhat diamonds-forge:generate-helpers --diamond " ++ diamondName ++ "\n"
    ++ " *\n"
    ++ " * ⚠️  DO NOT EDIT MANUALLY - Changes will be overwritten on next generation\n"
    ++ " */\n"
    ++ "library DiamondDeployment \x7b\n"
    ++ "    /// @notice Name of the Diamond contract\n"
    ++ "    /// @dev Used for identifying the Diamond in tests\n"
    ++ "    string constant DIAMOND_NAME = \"" ++ diamondName ++ "\";\n\n"
    ++ "    /// @notice Path to the Diamond ABI file\n"
    ++ "    /// @dev Used by DiamondFuzzBase to load ABI for testing\n"
    ++ "    string constant DIAMOND_ABI_PATH = \"./diamond-abi/" ++ diamondName ++ ".json\";\n\n"
    ++ "    /// @notice Address of the deployed " ++ diamondName ++ " contract\n"
    ++ "    /// @dev This is the main Diamond proxy address\n"
    ++ "    address constant DIAMOND_ADDRESS = " ++ dd.DiamondAddress ++ ";\n\n"
    ++ "    /// @notice Address of the deployer account\n"
    ++ "    /// @dev Account that deployed the Diamond\n"
    ++ "    address constant DEPLOYER_ADDRESS = " ++ dd.DeployerAddress ++ ";\n\n"
    ++ "    // ========================================\n"
    ++ "    // Facet Addresses\n"
    ++ "    // ========================================\n\n"
    ++ facetConstantLines dd.DeployedFacets
    ++ "\n"
    ++ "    // ========================================\n"
    ++ "    // Helper Functions\n"
    ++ "    // ========================================\n\n"
    ++ "    /**\n"
    ++ "     * @notice Get the Diamond name\n"
    ++ "     * @return The name of the Diamond contract\n"
    ++ "     */\n"
    ++ "    function getDiamondName() internal pure returns (string memory) \x7b\n"
    ++ "        return DIAMOND_NAME;\n"
    ++ "    \x7d\n\n"
    ++ "    /**\n"
    ++ "     * @notice Get the path to the Diamond ABI file\n"
    ++ "     * @return The path to the Diamond ABI JSON file\n"
    ++ "     */\n"
    ++ "    function getDiamondABIPath() internal pure returns (string memory) \x7b\n"
    ++ "        return DIAMOND_ABI_PATH;\n"
    ++ "    \x7d\n\n"
    ++ "    /**\n"
    ++ "     * @notice Get the Diamond contract address\n"
    ++ "     * @return The address of the deployed Diamond proxy\n"
    ++ "     */\n"
    ++ "    function getDiamondAddress() internal pure returns (address) \x7b\n"
    ++ "        return DIAMOND_ADDRESS;\n"
    ++ "    \x7d\n\n"
    ++ "    /**\n"
    ++ "     * @notice Get the deployer address\n"
    ++ "     * @return The address of the deployer account\n"
    ++ "     */\n"
    ++ "    function getDeployerAddress() internal pure returns (address) \x7b\n"
    ++ "        return DEPLOYER_ADDRESS;\n"
    ++ "    \x7d\n\n"
    ++ "    /**\n"
    ++ "     * @notice Get facet implementation address by name\n"
    ++ "     * @param facetName The name of the facet\n"
    ++ "     * @return The address of the facet implementation\n"
    ++ "     */\n"
    ++ "    function getFacetAddress(string memory facetName) internal pure returns (address) \x7b\n"
    ++ facetBranchLines true dd.DeployedFacets
    ++ "        return address(0);\n"
    ++ "    \x7d\n"
    ++ "\x7d\n"

theorem generateLibrarySource_parts (dn nw : String) (cid : Nat)
    (dd : DeployedDiamondData) (t : String) :
    generateLibrarySource dn nw cid dd t = genPre dn nw cid ++ t ++ genSuf dn dd := by
  simp only [generateLibrarySource, genPre, genSuf, String.append_assoc]

/-- C4 counterexample: with fixed `(diamondName, networkName, chainId,
DeployedData)`, two invocations of the generator at different wall-clock
instants (`new Date().toISOString()` values) produce different source text,
so the generator is not byte-deterministic in its explicit inputs alone. -/
theorem generateLibrarySource_timestamp_counterexample :
    generateLibrarySource "ExampleDiamond" "hardhat" 31337
        ⟨"0x1111", "0x2222", []⟩ "2025-01-01T00:00:00.000Z"
      ≠ generateLibrarySource "ExampleDiamond" "hardhat" 31337
        ⟨"0x1111", "0x2222", []⟩ "2025-01-01T00:00:00.001Z0" := by
  intro hEq
  rw [generateLibrarySource_parts, generateLibrarySource_parts] at hEq
  have hlen := congrArg String.length hEq
  simp only [String.length_append] at hlen
  have h1 : ("2025-01-01T00:00:00.000Z" : String).length = 24 := rfl
  have h2 : ("2025-01-01T00:00:00.001Z0" : String).length = 25 := rfl
  omega

/-- C4 amended: the generator is deterministic in its explicit inputs plus
the generation instant: the emitted text is exactly
`prefix(inputs) ++ timestamp ++ suffix(inputs)`, so two invocations with the
same inputs and the same header timestamp are byte-identical, and the
timestamp is the only dependence on the invocation time. -/
theorem generateLibrarySource_deterministic (dn nw : String) (cid : Nat)
    (dd : DeployedDiamondData) (t1 t2 : String) :
    generateLibrarySource dn nw cid dd t1 = genPre dn nw cid ++ t1 ++ genSuf dn dd
    ∧ (t1 = t2 →
        generateLibrarySource dn nw cid dd t1 = generateLibrarySource dn nw cid dd t2) :=
  ⟨generateLibrarySource_parts dn nw cid dd t1, fun h => by rw [h]⟩

theorem generateLibrarySource_deterministic_witness :
    generateLibrarySource "ExampleDiamond" "hardhat" 31337
        ⟨"0x1111", "0x2222", []⟩ "2025-01-01T00:00:00.000Z"
      = genPre "ExampleDiamond" "hardhat" 31337 ++ "2025-01-01T00:00:00.000Z"
          ++ genSuf "ExampleDiamond" ⟨"0x1111", "0x2222", []⟩
    ∧ generateLibrarySource "ExampleDiamond" "hardhat" 31337
        ⟨"0x1111", "0x2222", []⟩ "2025-01-01T00:00:00.000Z"
      = generateLibrarySource "ExampleDiamond" "hardhat" 31337
        ⟨"0x1111", "0x2222", []⟩ "2025-01-01T00:00:00.000Z" :=
  ⟨(generateLibrarySource_deterministic "ExampleDiamond" "hardhat" 31337
      ⟨"0x1111", "0x2222", []⟩ "2025-01-01T00:00:00.000Z" "2025-01-01T00:00:00.000Z").1,
   (generateLibrarySource_deterministic "ExampleDiamond" "hardhat" 31337
      ⟨"0x1111", "0x2222", []⟩ "2025-01-01T00:00:00.000Z" "2025-01-01T00:00:00.000Z").2 rfl⟩

/-!
Coverage command building (ForgeCoverageFramework, `buildCoverageCommand`
and its option-group helpers). JS truthiness drives emission:

  * optional strings emit `--flag value` iff present and nonempty;
  * optional numbers compared with `!== undefined` emit iff present;
  * booleans emit a bare flag iff `true`;
  * `verbosity` emits one `-vvv…` token iff present and positive;
  * `report` emits one `--report value` pair per element, in array order;
  * the assembled vector is finally filtered of empty-string tokens
    (`args.filter(arg => arg !== "")`).
-/

/-- The `CoverageOptions` request object: every field optional, defaults model
`undefined` (JS `false` and `undefined` coincide under truthiness, so plain
booleans default to `false`). -/
structure CoverageOptions where
  diamondName : Option String := none
  networkName : Option String := none
  skipDeployment : Bool := false
  skipHelpers : Bool := false
  writeDeployedDiamondData : Bool := false
  report : Option (List String) := none
  reportFile : Option String := none
  lcovVersion : Option String := none
  includeLibs : Bool := false
  excludeTests : Bool := false
  irMinimum : Bool := false
  matchTest : Option String := none
  noMatchTest : Option String := none
  matchContract : Option String := none
  noMatchContract : Option String := none
  matchPath : Option String := none
  noMatchPath : Option String := none
  noMatchCoverage : Option String := none
  verbosity : Option Int := none
  quiet : Bool := false
  json : Bool := false
  md : Bool := false
  color : Option String := none
  threads : Option Int := none
  fuzzRuns : Option Int := none
  fuzzSeed : Option String := none
  failFast : Bool := false
  allowFailure : Bool := false
  forkUrl : Option String := none
  forkBlockNumber : Option Int := none
  initialBalance : Option String := none
  sender : Option String := none
  ffi : Bool := false
  force : Bool := false
  noCache : Bool := false
  optimize : Bool := false
  optimizerRuns : Option Int := none
  viaIr : Bool := false

/-- `if (options.x) args.push(flag, options.x)` for a string field
(JS truthiness: absent and empty both skip). -/
def optFlag (o : Option String) (flag : String) : List String :=
  match o with
  | some s => if s = "" then [] else [flag, s]
  | none => []

/-- `if (options.x) args.push(flag)` for a boolean field. -/
def boolFlag (b : Bool) (flag : String) : List String :=
  if b then [flag] else []

/-- `if (options.x !== undefined) args.push(flag, options.x.toString())` for a
numeric field. -/
def intFlag (o : Option Int) (flag : String) : List String :=
  match o with
  | some n => [flag, toString n]
  | none => []

/-- The `for (const reportType of options.report)` loop: one
`--report value` pair per element, in order. -/
def reportFlags : List String → List String
  | [] => []
  | r :: rs => "--report" :: r :: reportFlags rs

/-- `buildReportOptions` (part_012, lines 179-210). -/
def buildReportOptions (o : CoverageOptions) : List String :=
  (match o.report with
   | some l => if l.isEmpty then [] else reportFlags l
   | none => [])
    ++ optFlag o.reportFile "--report-file"
    ++ optFlag o.lcovVersion "--lcov-version"
    ++ boolFlag o.includeLibs "--include-libs"
    ++ boolFlag o.excludeTests "--exclude-tests"
    ++ boolFlag o.irMinimum "--ir-minimum"

/-- `buildFilterOptions` (part_012, lines 215-247). -/
def buildFilterOptions (o : CoverageOptions) : List String :=
  optFlag o.matchTest "--match-test"
    ++ optFlag o.noMatchTest "--no-match-test"
    ++ optFlag o.matchContract "--match-contract"
    ++ optFlag o.noMatchContract "--no-match-contract"
    ++ optFlag o.matchPath "--match-path"
    ++ optFlag o.noMatchPath "--no-match-path"
    ++ optFlag o.noMatchCoverage "--no-match-coverage"

/-- `buildDisplayOptions` (part_012, lines 252-277): `verbosity` in
`1..` becomes one `"-" + "v".repeat(verbosity)` token. -/
def buildDisplayOptions (o : CoverageOptions) : List String :=
  (match o.verbosity with
   | some n => if 0 < n then ["-" ++ String.mk (List.replicate n.toNat 'v')] else []
   | none => [])
    ++ boolFlag o.quiet "--quiet"
    ++ boolFlag o.json "--json"
    ++ boolFlag o.md "--md"
    ++ optFlag o.color "--color"

/-- `buildTestOptions` (part_012, lines 282-306). -/
def buildTestOptions (o : CoverageOptions) : List String :=
  intFlag o.threads "--threads"
    ++ intFlag o.fuzzRuns "--fuzz-runs"
    ++ optFlag o.fuzzSeed "--fuzz-seed"
    ++ boolFlag o.failFast "--fail-fast"
    ++ boolFlag o.allowFailure "--allow-failure"

/-- `buildEvmOptions` (part_012, lines 311-331). -/
def buildEvmOptions (o : CoverageOptions) : List String :=
  intFlag o.forkBlockNumber "--fork-block-number"
    ++ optFlag o.initialBalance "--initial-balance"
    ++ optFlag o.sender "--sender"
    ++ boolFlag o.ffi "--ffi"

/-- `buildBuildOptions` (part_012, lines 336-360). -/
def buildBuildOptions (o : CoverageOptions) : List String :=
  boolFlag o.force "--force"
    ++ boolFlag o.noCache "--no-cache"
    ++ boolFlag o.optimize "--optimize"
    ++ intFlag o.optimizerRuns "--optimizer-runs"
    ++ boolFlag o.viaIr "--via-ir"

/-- `buildCoverageCommand` (part_012, lines 157-174): fork URL pair first,
then the six option groups in fixed order, finally dropping empty tokens. -/
def buildCoverageCommand (o : CoverageOptions) : List String :=
  List.filter (fun a => a != "")
    (optFlag o.forkUrl "--fork-url"
      ++ buildReportOptions o
      ++ buildFilterOptions o
      ++ buildDisplayOptions o
      ++ buildTestOptions o
      ++ buildEvmOptions o
      ++ buildBuildOptions o)

/-- C6: whenever the options carry a (nonempty) fork URL, the built argument
vector begins with the pair `--fork-url url`, followed by the option groups
in the fixed order report, filter, display, execution, EVM, build (modulo the
final empty-token filter the code applies to the whole vector). -/
theorem buildCoverageCommand_forkUrl_first (o : CoverageOptions) (u : String)
    (hu : o.forkUrl = some u) (hne : u ≠ "") :
    buildCoverageCommand o
      = "--fork-url" :: u ::
          List.filter (fun a => a != "")
            (buildReportOptions o ++ buildFilterOptions o ++ buildDisplayOptions o
              ++ buildTestOptions o ++ buildEvmOptions o ++ buildBuildOptions o) := by
  unfold buildCoverageCommand optFlag
  rw [hu]
  simp [hne, List.filter_cons]

/-- Options for the C6 witness: a fork URL and nothing else. -/
def optsFork : CoverageOptions := { forkUrl := some "http://127.0.0.1:8545" }

theorem buildCoverageCommand_forkUrl_first_witness :
    buildCoverageCommand optsFork
      = "--fork-url" :: "http://127.0.0.1:8545" ::
          List.filter (fun a => a != "")
            (buildReportOptions optsFork ++ buildFilterOptions optsFork
              ++ buildDisplayOptions optsFork ++ buildTestOptions optsFork
              ++ buildEvmOptions optsFork ++ buildBuildOptions optsFork) :=
  buildCoverageCommand_forkUrl_first optsFork "http://127.0.0.1:8545" rfl (by decide)

/-- C7: the builder is a pure translation (equal options objects give equal
vectors); a multi-valued `report` of `summary, lcov` contributes exactly the
pairs `--report summary --report lcov` at the head of the report group, in
order; a positive `verbosity` n contributes the single token `-` followed by
n repetitions of `v` at the head of the display group; `verbosity` 0 emits
nothing (the display group equals the one built with `verbosity` absent). -/
theorem buildCoverageCommand_translation :
    (∀ o1 o2 : CoverageOptions, o1 = o2 → buildCoverageCommand o1 = buildCoverageCommand o2)
    ∧ (∀ o : CoverageOptions, o.report = some ["summary", "lcov"] →
        ∃ rest, buildReportOptions o = "--report" :: "summary" :: "--report" :: "lcov" :: rest)
    ∧ (∀ (o : CoverageOptions) (n : Int), o.verbosity = some n → 0 < n →
        ∃ rest, buildDisplayOptions o
          = ("-" ++ String.mk (List.replicate n.toNat 'v')) :: rest)
    ∧ (∀ o : CoverageOptions, o.verbosity = some 0 →
        buildDisplayOptions o = buildDisplayOptions { o with verbosity := none }) := by
  refine ⟨fun o1 o2 h => by rw [h], fun o h => ?_, fun o n hv hn => ?_, fun o h => ?_⟩
  · exact ⟨_, by unfold buildReportOptions; rw [h]; rfl⟩
  · refine ⟨boolFlag o.quiet "--quiet" ++ boolFlag o.json "--json"
        ++ boolFlag o.md "--md" ++ optFlag o.color "--color", ?_⟩
    unfold buildDisplayOptions
    rw [hv]
    simp [hn, List.append_assoc]
  · unfold buildDisplayOptions
    rw [h]
    rfl

/-- Options for the C7 witness: the multi-valued report and verbosity 3. -/
def optsRV : CoverageOptions := { report := some ["summary", "lcov"], verbosity := some 3 }

/-- Options for the C7 witness: verbosity 0. -/
def optsV0 : CoverageOptions := { verbosity := some 0 }

theorem buildCoverageCommand_translation_witness :
    buildCoverageCommand optsRV = buildCoverageCommand optsRV
    ∧ (∃ rest, buildReportOptions optsRV
        = "--report" :: "summary" :: "--report" :: "lcov" :: rest)
    ∧ (∃ rest, buildDisplayOptions optsRV
        = ("-" ++ String.mk (List.replicate (3 : Int).toNat 'v')) :: rest)
    ∧ buildDisplayOptions optsV0 = buildDisplayOptions { optsV0 with verbosity := none } :=
  ⟨buildCoverageCommand_translation.1 optsRV optsRV rfl,
   buildCoverageCommand_translation.2.1 optsRV rfl,
   buildCoverageCommand_translation.2.2.1 optsRV 3 rfl (by decide),
   buildCoverageCommand_translation.2.2.2 optsV0 rfl⟩

/-- The options object with every field left `undefined` (booleans `false`). -/
def emptyCoverageOptions : CoverageOptions := {}

/-- C8: presence controls emission: each option group is empty when all of
its fields are absent (or `false`), the whole vector contains no fork tokens
when `forkUrl` is absent, and with every field undefined the built argument
vector is empty. -/
theorem buildCoverageCommand_omission :
    buildCoverageCommand emptyCoverageOptions = []
    ∧ (∀ o : CoverageOptions, o.report = none → o.reportFile = none → o.lcovVersion = none →
        o.includeLibs = false → o.excludeTests = false → o.irMinimum = false →
        buildReportOptions o = [])
    ∧ (∀ o : CoverageOptions, o.matchTest = none → o.noMatchTest = none →
        o.matchContract = none → o.noMatchContract = none → o.matchPath = none →
        o.noMatchPath = none → o.noMatchCoverage = none → buildFilterOptions o = [])
    ∧ (∀ o : CoverageOptions, o.verbosity = none → o.quiet = false → o.json = false →
        o.md = false → o.color = none → buildDisplayOptions o = [])
    ∧ (∀ o : CoverageOptions, o.threads = none → o.fuzzRuns = none → o.fuzzSeed = none →
        o.failFast = false → o.allowFailure = false → buildTestOptions o = [])
    ∧ (∀ o : CoverageOptions, o.forkBlockNumber = none → o.initialBalance = none →
        o.sender = none → o.ffi = false → buildEvmOptions o = [])
    ∧ (∀ o : CoverageOptions, o.force = false → o.noCache = false → o.optimize = false →
        o.optimizerRuns = none → o.viaIr = false → buildBuildOptions o = [])
    ∧ (∀ o : CoverageOptions, o.forkUrl = none →
        buildCoverageCommand o
          = List.filter (fun a => a != "")
              (buildReportOptions o ++ buildFilterOptions o ++ buildDisplayOptions o
                ++ buildTestOptions o ++ buildEvmOptions o ++ buildBuildOptions o)) := by
  refine ⟨rfl, ?_, ?_, ?_, ?_, ?_, ?_, ?_⟩
  · intro o h1 h2 h3 h4 h5 h6
    simp [buildReportOptions, optFlag, boolFlag, h1, h2, h3, h4, h5, h6]
  · intro o h1 h2 h3 h4 h5 h6 h7
    simp [buildFilterOptions, optFlag, h1, h2, h3, h4, h5, h6, h7]
  · intro o h1 h2 h3 h4 h5
    simp [buildDisplayOptions, optFlag, boolFlag, h1, h2, h3, h4, h5]
  · intro o h1 h2 h3 h4 h5
    simp [buildTestOptions, optFlag, boolFlag, intFlag, h1, h2, h3, h4, h5]
  · intro o h1 h2 h3 h4
    simp [buildEvmOptions, optFlag, boolFlag, intFlag, h1, h2, h3, h4]
  · intro o h1 h2 h3 h4 h5
    simp [buildBuildOptions, optFlag, boolFlag, intFlag, h1, h2, h3, h4, h5]
  · intro o h
    unfold buildCoverageCommand optFlag
    rw [h]
    rfl

theorem buildCoverageCommand_omission_witness :
    buildReportOptions emptyCoverageOptions = []
    ∧ buildFilterOptions emptyCoverageOptions = []
    ∧ buildDisplayOptions emptyCoverageOptions = []
    ∧ buildTestOptions emptyCoverageOptions = []
    ∧ buildEvmOptions emptyCoverageOptions = []
    ∧ buildBuildOptions emptyCoverageOptions = []
    ∧ buildCoverageCommand emptyCoverageOptions
        = List.filter (fun a => a != "")
            (buildReportOptions emptyCoverageOptions
              ++ buildFilterOptions emptyCoverageOptions
              ++ buildDisplayOptions emptyCoverageOptions
              ++ buildTestOptions emptyCoverageOptions
              ++ buildEvmOptions emptyCoverageOptions
              ++ buildBuildOptions emptyCoverageOptions) :=
  ⟨buildCoverageCommand_omission.2.1 emptyCoverageOptions rfl rfl rfl rfl rfl rfl,
   buildCoverageCommand_omission.2.2.1 emptyCoverageOptions rfl rfl rfl rfl rfl rfl rfl,
   buildCoverageCommand_omission.2.2.2.1 emptyCoverageOptions rfl rfl rfl rfl rfl,
   buildCoverageCommand_omission.2.2.2.2.1 emptyCoverageOptions rfl rfl rfl rfl rfl,
   buildCoverageCommand_omission.2.2.2.2.2.1 emptyCoverageOptions rfl rfl rfl rfl,
   buildCoverageCommand_omission.2.2.2.2.2.2.1 emptyCoverageOptions rfl rfl rfl rfl rfl,
   buildCoverageCommand_omission.2.2.2.2.2.2.2 emptyCoverageOptions rfl⟩

/-!
Process execution adapters.

`executeForge` (part_012, lines 368-389) wraps `spawn` in a promise: the
`close` event carries the child's exit code (`null` when the child was
terminated by a signal) and resolves `true` iff `code === 0`; the `error`
event (spawn-level failure) rejects the promise. The two event outcomes are
embedded as an event type, and the promise's fate as `Except`:
`Except.ok` is a resolution, `Except.error` a rejection.
-/

/-- The terminal event of the spawned child process. -/
inductive ForgeProcEvent where
  | close : Option Int → ForgeProcEvent
  | error : String → ForgeProcEvent
deriving DecidableEq

/-- `executeForge`'s promise fate as a function of the terminal event:
`close` resolves `code === 0`, `error` rejects. -/
def executeForge : ForgeProcEvent → Except String Bool
  | ForgeProcEvent.close code => if code == some 0 then Except.ok true else Except.ok false
  | ForgeProcEvent.error msg => Except.error msg

/-- C9: the adapter resolves `true` exactly for exit code 0 and `false` for
every other exit code, while a spawn-level error is a rejection and never a
boolean resolution. -/
theorem executeForge_exit_semantics :
    (∀ c : Int, executeForge (ForgeProcEvent.close (some c)) = Except.ok (decide (c = 0)))
    ∧ (∀ m : String, executeForge (ForgeProcEvent.error m) = Except.error m)
    ∧ (∀ (m : String) (b : Bool), executeForge (ForgeProcEvent.error m) ≠ Except.ok b) := by
  refine ⟨fun c => ?_, fun m => rfl, fun m b h => by cases h⟩
  unfold executeForge
  by_cases h : c = 0
  · simp [h]
  · simp [h]

/-!
`execForgeAsync` (foundry.ts, lines 40-81) resolves
`exitCode: code || 0` on `close`: JS `||` takes the right operand when the
left is falsy, and both `null` (signal termination) and `0` are falsy.
`runForgeTest` (lines 118-132) then computes `success = exitCode === 0`.
-/

/-- The `exitCode` field `execForgeAsync` resolves from the `close` event's
code: the JS expression `code || 0`. -/
def execForgeAsyncExitCode (code : Option Int) : Int :=
  match code with
  | some c => if c = 0 then 0 else c
  | none => 0

/-- `runForgeTest`'s success flag from the close code of its child. -/
def runForgeTestSuccess (code : Option Int) : Bool :=
  execForgeAsyncExitCode code == 0

/-- C10: a child that closes with a `null` exit code (signal termination) is
reported by `execForgeAsync` as `exitCode` 0, so `runForgeTest` counts the
run as a success. -/
theorem execForgeAsync_null_close_success :
    execForgeAsyncExitCode none = 0 ∧ runForgeTestSuccess none = true :=
  ⟨rfl, rfl⟩
